import Mathlib

/-!
Shallow embedding of the flight-visualization core of the repository
(`src/agentstack_agents/visualize.py`) and of the orchestrator glue that
invokes it (`src/agentstack_agents/agent.py`, `flight_search_agent` /
`visualize_flights`).

Conventions of the embedding:
* Geographic coordinates (Python floats holding degrees) are modelled as
  rationals `ℚ`.
* The process-wide airport reference table (`airportsdata.load("IATA")`,
  a dict keyed by IATA code) is modelled as an association list passed
  explicitly; dict lookup `airports[code]` is `lookupAirport`, which fails
  with the missing key (Python `KeyError(code)`).
* Python code that can raise is embedded in `Except String`; an uncaught
  exception is an `Except.error` value that propagates, so no partial
  result is ever returned on failure.
* The matplotlib colormap `tab10` is a fixed listed palette of 10 colors;
  `rgb2hex(cmap(i % cmap.N))` is `tab10Color i`.
-/

set_option autoImplicit false

deriving instance DecidableEq for Except

namespace AgentStack

/-- A geographic coordinate: `lon`/`lat` in degrees, as in shapely's
`Point(lon, lat)` and `LineString [(lon, lat), ...]`. -/
structure Coord where
  lon : ℚ
  lat : ℚ
  deriving DecidableEq, Repr

/-- The airport reference table: IATA code ↦ coordinate
(`airportsdata.load("IATA")`). -/
abbrev AirportDB := List (String × Coord)

/-- Dict lookup `airports[code]`: returns the coordinate, or raises
`KeyError(code)` when the code is absent (no normalization, no fuzzy
matching). -/
def lookupAirport (db : AirportDB) (code : String) : Except String Coord :=
  match db.find? (fun row => row.1 == code) with
  | some row => Except.ok row.2
  | none => Except.error code

/-- The ten colors of matplotlib's `tab10` listed colormap, as produced
by `matplotlib.colors.rgb2hex`. -/
def tab10 : List String :=
  ["#1f77b4", "#ff7f0e", "#2ca02c", "#d62728", "#9467bd",
   "#8c564b", "#e377c2", "#7f7f7f", "#bcbd22", "#17becf"]

/-- The palette size `cmap.N` of the `tab10` colormap. -/
def cmapN : Nat := tab10.length

/-- Embeds `matplotlib.colors.rgb2hex(cmap(flight_idx % cmap.N))`: the
color assigned to the itinerary at 0-based index `i`. -/
def tab10Color (i : Nat) : String := tab10.getD (i % cmapN) "#000000"

/-- One straight flight segment: the `LineString` between the resolved
origin and destination coordinates. -/
structure Segment where
  p0 : Coord
  p1 : Coord
  deriving DecidableEq, Repr

/-- One row of `flights_gdf`: the per-segment data appended in lockstep to
`flight_labels` (`route` column), `flight_colors` (`color` column) and
`flight_lines` (geometry column). -/
structure SegRow where
  route : String
  color : String
  geometry : Segment
  deriving DecidableEq, Repr

/-- The `flights_gdf` GeoDataFrame: its rows, in append order. -/
structure FlightsGdf where
  rows : List SegRow
  deriving DecidableEq, Repr

/-- The `airports_gdf` GeoDataFrame: rows pairing the `code` column with
the `Point` geometry, in append order. -/
structure AirportsGdf where
  rows : List (String × Coord)
  deriving DecidableEq, Repr

/-- The consecutive pairs `(flight[i], flight[i+1])` for
`i in range(len(flight) - 1)`. -/
def consPairs {α : Type} : List α → List (α × α)
  | a :: b :: rest => (a, b) :: consPairs (b :: rest)
  | _ => []

/-- Embeds the Python join `" → ".join(flight)`: the full route string of
an itinerary. -/
def joinRoute (flight : List String) : String :=
  String.intercalate " → " flight

/-- The f-string `f"{origin} → {dest} (part of {full_route})"`. -/
def segmentLabel (origin dest full_route : String) : String :=
  origin ++ " → " ++ dest ++ " (part of " ++ full_route ++ ")"

/-- Sequential map over `Except`, written as the explicit
loop-with-exception it embeds: the first failing iteration aborts the
whole loop. -/
def mapExcept {α β ε : Type} (g : α → Except ε β) : List α → Except ε (List β)
  | [] => Except.ok []
  | a :: as =>
    match g a with
    | Except.error e => Except.error e
    | Except.ok b =>
      match mapExcept g as with
      | Except.error e => Except.error e
      | Except.ok bs => Except.ok (b :: bs)

/-- One iteration of the inner segment loop: resolve both endpoints of the
pair `p`, build the `LineString` and the label, tag the itinerary color. -/
def mkSegRow (db : AirportDB) (color : String) (flight : List String)
    (p : String × String) : Except String SegRow :=
  match lookupAirport db p.1 with
  | Except.error e => Except.error e
  | Except.ok co =>
    match lookupAirport db p.2 with
    | Except.error e => Except.error e
    | Except.ok cd =>
      Except.ok
        { route := segmentLabel p.1 p.2 (joinRoute flight)
          color := color
          geometry := { p0 := co, p1 := cd } }

/-- The inner loop `for i in range(len(flight) - 1)` of
`prepare_flight_data`, for one itinerary with its assigned color. -/
def mkSegments (db : AirportDB) (color : String) (flight : List String) :
    Except String (List SegRow) :=
  mapExcept (mkSegRow db color flight) (consPairs flight)

/-- The outer loop `for flight_idx, flight in enumerate(flights)`:
`flight_idx` is the running index, each itinerary's segment rows are
appended in order. -/
def buildFlightRows (db : AirportDB) (flight_idx : Nat) :
    List (List String) → Except String (List SegRow)
  | [] => Except.ok []
  | flight :: rest =>
    match mkSegments db (tab10Color flight_idx) flight with
    | Except.error e => Except.error e
    | Except.ok rows =>
      match buildFlightRows db (flight_idx + 1) rest with
      | Except.error e => Except.error e
      | Except.ok tail => Except.ok (rows ++ tail)

/-- The deduplication loop body over a stream of codes with the `seen_codes`
set (modelled as the list of codes added so far): an unseen code is resolved
and appended to both `airport_points` and `airport_codes`, a seen code is
skipped.  Returns the appended rows and the final `seen_codes`. -/
def collectCodes (db : AirportDB) (seen : List String) :
    List String → Except String (List (String × Coord) × List String)
  | [] => Except.ok ([], seen)
  | c :: rest =>
    if c ∈ seen then collectCodes db seen rest
    else
      match lookupAirport db c with
      | Except.error e => Except.error e
      | Except.ok coord =>
        match collectCodes db (c :: seen) rest with
        | Except.error e => Except.error e
        | Except.ok (tail, seen') => Except.ok ((c, coord) :: tail, seen')

/-- The nested loops `for flight in flights: for code in flight:` of the
deduplication phase, threading `seen_codes` across itineraries. -/
def collectFlights (db : AirportDB) (seen : List String) :
    List (List String) → Except String (List (String × Coord) × List String)
  | [] => Except.ok ([], seen)
  | flight :: rest =>
    match collectCodes db seen flight with
    | Except.error e => Except.error e
    | Except.ok (pts, seen') =>
      match collectFlights db seen' rest with
      | Except.error e => Except.error e
      | Except.ok (tail, seen'') => Except.ok (pts ++ tail, seen'')

/-- Embeds `prepare_flight_data(flights)` of `visualize.py`: builds the segment
rows (first loop, which performs all its lookups first), then the
deduplicated airport rows, and returns the two GeoDataFrames.  Any
`KeyError` propagates, so no partial pair is produced. -/
def prepare_flight_data (db : AirportDB) (flights : List (List String)) :
    Except String (FlightsGdf × AirportsGdf) :=
  match buildFlightRows db 0 flights with
  | Except.error e => Except.error e
  | Except.ok flightRows =>
    match collectFlights db [] flights with
    | Except.error e => Except.error e
    | Except.ok (airportRows, _) =>
      Except.ok ({ rows := flightRows }, { rows := airportRows })

/-! ### Interactive renderer (`create_interactive_map`) -/

/-- A child element added to the folium map: `folium.PolyLine(...)` or
`folium.CircleMarker(...)`, with the keyword arguments the source passes. -/
inductive FoliumChild where
  | polyLine (locations : List (ℚ × ℚ)) (color : String) (weight : ℚ)
      (opacity : ℚ) (tooltip : String)
  | circleMarker (location : ℚ × ℚ) (radius : ℚ) (color : String)
      (fill : Bool) (fillColor : String) (fillOpacity : ℚ) (tooltip : String)
  deriving DecidableEq, Repr

/-- The folium map object `m`: base map parameters and the children in
`add_to` order. -/
structure FoliumMap where
  location : ℚ × ℚ
  zoom_start : Nat
  children : List FoliumChild
  deriving DecidableEq, Repr

/-- The map-construction part of `create_interactive_map`: base map at
`[30.0, 0.0]` zoom 2; one `PolyLine` per `flights_gdf` row whose locations
swap each geometry coordinate to `(lat, lon)`, colored `row["color"]`,
weight 3, opacity 0.7, tooltip `row["route"]`; then one `CircleMarker` per
`airports_gdf` row at `(geometry.y, geometry.x)`, radius 8, blue fill,
tooltip `row["code"]`. -/
def buildInteractiveMap (flights_gdf : FlightsGdf) (airports_gdf : AirportsGdf) :
    FoliumMap :=
  { location := (30, 0)
    zoom_start := 2
    children :=
      flights_gdf.rows.map (fun row =>
        FoliumChild.polyLine
          [(row.geometry.p0.lat, row.geometry.p0.lon),
           (row.geometry.p1.lat, row.geometry.p1.lon)]
          row.color 3 (7/10) row.route)
      ++ airports_gdf.rows.map (fun row =>
        FoliumChild.circleMarker (row.2.lat, row.2.lon) 8 "blue" true "blue"
          (7/10) row.1) }

/-- Modelled from the spec: folium's `m.get_root().render()` is library
code outside this repository; the spec says the interactive renderer
"serializes the complete map (including any required client-side rendering
assets) to a single self-contained markup buffer".  The model emits one
markup element per child. -/
def renderChild : FoliumChild → String
  | FoliumChild.polyLine _ color _ _ tooltip =>
      "<polyline color=" ++ color ++ " tooltip=" ++ tooltip ++ ">"
  | FoliumChild.circleMarker _ _ color _ _ _ tooltip =>
      "<marker color=" ++ color ++ " tooltip=" ++ tooltip ++ ">"

/-- Modelled from the spec: the self-contained markup document for the
whole map, a fixed non-empty document head followed by the children. -/
def renderHtml (m : FoliumMap) : String :=
  "<!DOCTYPE html><head></head><div class=folium-map></div>"
    ++ String.join (m.children.map renderChild)

/-- Embeds `create_interactive_map(flights_gdf, airports_gdf)`: builds the folium
map and serializes it.  The returned buffer is `render().encode("utf-8")`;
the model keeps the markup as a string (UTF-8 encoding is injective and
preserves non-emptiness). -/
def create_interactive_map (flights_gdf : FlightsGdf)
    (airports_gdf : AirportsGdf) : String :=
  renderHtml (buildInteractiveMap flights_gdf airports_gdf)

/-! ### Static renderer (`create_static_map`) -/

/-- The `total_bounds` box `(minx, miny, maxx, maxy)`. -/
structure Bounds where
  minx : ℚ
  miny : ℚ
  maxx : ℚ
  maxy : ℚ
  deriving DecidableEq, Repr

/-- Minimum of a list of rationals; the `[]` default is never used by the
theorems (geopandas yields NaN bounds on an empty frame, an input the spec
does not cover). -/
def listMin : List ℚ → ℚ
  | [] => 0
  | x :: xs => xs.foldl min x

/-- Maximum of a list of rationals (see `listMin` about `[]`). -/
def listMax : List ℚ → ℚ
  | [] => 0
  | x :: xs => xs.foldl max x

/-- Every coordinate of every geometry of
`pd.concat([flights_gdf, airports_gdf])`: both endpoints of each segment
`LineString`, then each airport `Point`. -/
def allCoords (flights_gdf : FlightsGdf) (airports_gdf : AirportsGdf) :
    List Coord :=
  (flights_gdf.rows.map (fun r => [r.geometry.p0, r.geometry.p1])).flatten
    ++ airports_gdf.rows.map Prod.snd

/-- Embeds `all_bounds.total_bounds`: the envelope of all geometries. -/
def total_bounds (flights_gdf : FlightsGdf) (airports_gdf : AirportsGdf) :
    Bounds :=
  { minx := listMin ((allCoords flights_gdf airports_gdf).map Coord.lon)
    miny := listMin ((allCoords flights_gdf airports_gdf).map Coord.lat)
    maxx := listMax ((allCoords flights_gdf airports_gdf).map Coord.lon)
    maxy := listMax ((allCoords flights_gdf airports_gdf).map Coord.lat) }

/-- The observable outcome of `create_static_map`'s figure: the crop set by
`ax.set_xlim` / `ax.set_ylim` and the fixed title.  The drawing layers and
the PNG rasterization (`fig.savefig`) are matplotlib library behavior and
are not part of the crop computation the spec describes. -/
structure StaticFig where
  xlim : ℚ × ℚ
  ylim : ℚ × ℚ
  title : String
  deriving DecidableEq, Repr

/-- Embeds `create_static_map(flights_gdf, airports_gdf)`: first fetches the world
basemap (`gpd.read_file(<naturalearth URL>)`, modelled as the `world`
argument since the fetch is an external effect that can fail), then computes
`total_bounds`, the 10% paddings, and crops to the padded box. -/
def create_static_map (world : Except String Unit) (flights_gdf : FlightsGdf)
    (airports_gdf : AirportsGdf) : Except String StaticFig :=
  match world with
  | Except.error e => Except.error e
  | Except.ok _ =>
    let b := total_bounds flights_gdf airports_gdf
    let padding_x := (b.maxx - b.minx) * (1/10)
    let padding_y := (b.maxy - b.miny) * (1/10)
    Except.ok
      { xlim := (b.minx - padding_x, b.maxx + padding_x)
        ylim := (b.miny - padding_y, b.maxy + padding_y)
        title := "Flight Paths" }

/-! ### Orchestrator (`agent.py`, `flight_search_agent`) -/

/-- The two `nonlocal` buffers of `flight_search_agent`, initialized
`static_png_bytes, interactive_html_bytes = None, None`. -/
structure ToolBuffers where
  static_png_bytes : Option StaticFig
  interactive_html_bytes : Option String
  deriving DecidableEq, Repr

/-- Embeds the `visualize_flights` tool body: `prepare_flight_data`, then
`create_static_map` (assigning its buffer), then `create_interactive_map`
(assigning its buffer).  An exception leaves the buffers of the unreached
assignments untouched and propagates out of the tool call. -/
def visualize_flights (db : AirportDB) (world : Except String Unit)
    (flights : List (List String)) (bufs : ToolBuffers) :
    ToolBuffers × Except String Unit :=
  match prepare_flight_data db flights with
  | Except.error e => (bufs, Except.error e)
  | Except.ok (flights_gdf, airports_gdf) =>
    match create_static_map world flights_gdf airports_gdf with
    | Except.error e => (bufs, Except.error e)
    | Except.ok png =>
      let bufs1 : ToolBuffers := { bufs with static_png_bytes := some png }
      ({ bufs1 with
          interactive_html_bytes :=
            some (create_interactive_map flights_gdf airports_gdf) },
        Except.ok ())

/-- One tool invocation observed during the agent run: either the
`visualize_flights` tool, or any other tool (`ensure_all_data`, the kiwi
search tools), which never touches the two buffers. -/
inductive AgentEvent where
  | callVisualize (flights : List (List String))
  | callOther
  deriving DecidableEq, Repr

/-- The effect of the agent run's tool invocations on the buffers. -/
def runEvents (db : AirportDB) (world : Except String Unit) :
    List AgentEvent → ToolBuffers → ToolBuffers
  | [], bufs => bufs
  | AgentEvent.callVisualize fl :: rest, bufs =>
      runEvents db world rest (visualize_flights db world fl bufs).1
  | AgentEvent.callOther :: rest, bufs => runEvents db world rest bufs

/-- A part of the final `AgentMessage`: the joined answer text, the PNG
`FilePart` (`FileWithBytes`, name `flights.png`), or the uploaded HTML
file part (name `flights.html`). -/
inductive Part where
  | text (s : String)
  | pngFile (name : String) (content : StaticFig)
  | htmlFile (name : String) (content : String)
  deriving DecidableEq, Repr

/-- Assembly of the final message after the agent loop (`agent.py` lines
110–126): the text part always; the PNG file part only under
`if static_png_bytes is not None`; the HTML file part only under
`if interactive_html_bytes is not None`. -/
def buildFinalMessage (answer : String) (bufs : ToolBuffers) : List Part :=
  let parts0 := [Part.text answer]
  let parts1 :=
    match bufs.static_png_bytes with
    | some b => parts0 ++ [Part.pngFile "flights.png" b]
    | none => parts0
  match bufs.interactive_html_bytes with
  | some h => parts1 ++ [Part.htmlFile "flights.html" h]
  | none => parts1

/-- Discriminator: is this child a `folium.PolyLine`? -/
def isPolyLine : FoliumChild → Bool
  | FoliumChild.polyLine _ _ _ _ _ => true
  | FoliumChild.circleMarker _ _ _ _ _ _ _ => false

/-- Discriminator: is this child a `folium.CircleMarker`? -/
def isCircleMarker : FoliumChild → Bool
  | FoliumChild.polyLine _ _ _ _ _ => false
  | FoliumChild.circleMarker _ _ _ _ _ _ _ => true

/-- The hover tooltip carried by a child element. -/
def childTooltip : FoliumChild → String
  | FoliumChild.polyLine _ _ _ _ tooltip => tooltip
  | FoliumChild.circleMarker _ _ _ _ _ _ tooltip => tooltip

/-- The color carried by a child element. -/
def childColor : FoliumChild → String
  | FoliumChild.polyLine _ color _ _ _ => color
  | FoliumChild.circleMarker _ _ color _ _ _ _ => color

/-! ### Spec-side comparator for the airport-point sequence -/

/-- The airport-code sequence as the spec words it ("one per distinct
airport code appearing anywhere across all itineraries, in first-seen
order"), relative to an already-seen set; written for comparison with the
code-derived `collectCodes`. -/
def specFirstSeen (seen : List String) : List String → List String
  | [] => []
  | c :: rest =>
    if c ∈ seen then specFirstSeen seen rest
    else c :: specFirstSeen (c :: seen) rest

/-! ### Sample reference table and inputs used by concrete instances -/

/-- Coordinate of Prague airport (degrees, rounded to integers: the
claims under test do not depend on the exact values). -/
def prgCoord : Coord := { lon := (14 : ℚ), lat := (50 : ℚ) }

/-- Coordinate of Las Vegas airport. -/
def lasCoord : Coord := { lon := (-115 : ℚ), lat := (36 : ℚ) }

/-- Coordinate of New York JFK airport. -/
def jfkCoord : Coord := { lon := (-74 : ℚ), lat := (41 : ℚ) }

/-- A small concrete slice of the IATA reference table. -/
def sampleDB : AirportDB :=
  [("PRG", prgCoord), ("LAS", lasCoord), ("JFK", jfkCoord)]

/-- The round-trip demo input `[["PRG", "LAS"]]`. -/
def demoFlights : List (List String) := [["PRG", "LAS"]]

/-- The `flights_gdf` that `prepare_flight_data` returns on `demoFlights`
over `sampleDB`. -/
def demoF : FlightsGdf :=
  { rows := [{ route := "PRG → LAS (part of PRG → LAS)"
               color := "#1f77b4"
               geometry := { p0 := prgCoord, p1 := lasCoord } }] }

/-- The `airports_gdf` returned on `demoFlights` over `sampleDB`. -/
def demoA : AirportsGdf :=
  { rows := [("PRG", prgCoord), ("LAS", lasCoord)] }

/-- The deduplication demo input `[["PRG", "LAS"], ["LAS", "PRG"]]`. -/
def demo2Flights : List (List String) := [["PRG", "LAS"], ["LAS", "PRG"]]

/-- The `flights_gdf` returned on `demo2Flights` over `sampleDB`. -/
def demo2F : FlightsGdf :=
  { rows := [{ route := "PRG → LAS (part of PRG → LAS)"
               color := "#1f77b4"
               geometry := { p0 := prgCoord, p1 := lasCoord } },
             { route := "LAS → PRG (part of LAS → PRG)"
               color := "#ff7f0e"
               geometry := { p0 := lasCoord, p1 := prgCoord } }] }

/-- The `airports_gdf` returned on `demo2Flights` over `sampleDB`: the two
codes, each once, in first-seen order. -/
def demo2A : AirportsGdf :=
  { rows := [("PRG", prgCoord), ("LAS", lasCoord)] }

/-! ## Helper lemmas about the embedded loops -/

/-- The inner loop runs `len(flight) - 1` times. -/
theorem consPairs_length {α : Type} : ∀ l : List α, (consPairs l).length = l.length - 1
  | [] => rfl
  | [_] => rfl
  | a :: b :: rest => by
    have ih := consPairs_length (b :: rest)
    simp only [consPairs, List.length_cons] at ih ⊢
    omega

/-- An itinerary of length below 2 yields no consecutive pair at all. -/
theorem consPairs_nil_of_short {α : Type} (l : List α) (h : l.length < 2) :
    consPairs l = [] := by
  match l with
  | [] => rfl
  | [_] => rfl
  | _ :: _ :: _ => simp only [List.length_cons] at h; omega

/-- A failed lookup reports exactly the missing key. -/
theorem lookupAirport_error_eq {db : AirportDB} {code e : String}
    (h : lookupAirport db code = Except.error e) :
    e = code ∧ lookupAirport db e = Except.error e := by
  unfold lookupAirport at h
  split at h
  · cases h
  next heq =>
    injection h with h1
    subst h1
    exact ⟨rfl, by unfold lookupAirport; rw [heq]⟩

/-- Mapping a successful `mapExcept` run through a projection. -/
theorem mapExcept_ok_map {α β γ ε : Type} {g : α → Except ε β} {k : β → γ}
    {h : α → γ} (hk : ∀ a b, g a = Except.ok b → k b = h a) :
    ∀ {xs : List α} {ys : List β},
      mapExcept g xs = Except.ok ys → ys.map k = xs.map h := by
  intro xs
  induction xs with
  | nil =>
    intro ys hok
    simp only [mapExcept] at hok
    injection hok with h1
    subst h1
    rfl
  | cons a as ih =>
    intro ys hok
    simp only [mapExcept] at hok
    split at hok
    · cases hok
    next b hga =>
      split at hok
      · cases hok
      next bs hrec =>
        injection hok with h1
        subst h1
        simp only [List.map]
        rw [hk a b hga, ih hrec]

/-- A failing `mapExcept` run pinpoints a failing element. -/
theorem mapExcept_error {α β ε : Type} {g : α → Except ε β} :
    ∀ {xs : List α} {e : ε}, mapExcept g xs = Except.error e →
      ∃ a ∈ xs, g a = Except.error e := by
  intro xs
  induction xs with
  | nil => intro e h; simp only [mapExcept] at h; cases h
  | cons a as ih =>
    intro e h
    simp only [mapExcept] at h
    split at h
    next e' hga =>
      injection h with h1
      subst h1
      exact ⟨a, List.mem_cons_self a as, hga⟩
    next b hga =>
      split at h
      next e' hrec =>
        injection h with h1
        subst h1
        obtain ⟨x, hx, hgx⟩ := ih hrec
        exact ⟨x, List.mem_cons_of_mem a hx, hgx⟩
      next bs hrec => cases h

/-- A successfully built segment row carries the source's label and the
itinerary color. -/
theorem mkSegRow_ok {db : AirportDB} {color : String} {flight : List String}
    {p : String × String} {r : SegRow}
    (h : mkSegRow db color flight p = Except.ok r) :
    r.route = segmentLabel p.1 p.2 (joinRoute flight) ∧ r.color = color := by
  unfold mkSegRow at h
  split at h
  · cases h
  next co hco =>
    split at h
    · cases h
    next cd hcd =>
      injection h with h1
      subst h1
      exact ⟨rfl, rfl⟩

/-- A failing segment-row build fails on a key absent from the table. -/
theorem mkSegRow_error {db : AirportDB} {color : String} {flight : List String}
    {p : String × String} {e : String}
    (h : mkSegRow db color flight p = Except.error e) :
    lookupAirport db e = Except.error e := by
  unfold mkSegRow at h
  split at h
  next e' hco =>
    injection h with h1
    subst h1
    exact (lookupAirport_error_eq hco).2
  next co hco =>
    split at h
    next e' hcd =>
      injection h with h1
      subst h1
      exact (lookupAirport_error_eq hcd).2
    next => cases h

/-- Labels of one itinerary's segment rows, in pair order. -/
theorem mkSegments_ok_route {db : AirportDB} {color : String}
    {flight : List String} {rows : List SegRow}
    (h : mkSegments db color flight = Except.ok rows) :
    rows.map SegRow.route
      = (consPairs flight).map (fun p => segmentLabel p.1 p.2 (joinRoute flight)) :=
  mapExcept_ok_map (fun _ _ hr => (mkSegRow_ok hr).1) h

/-- Colors of one itinerary's segment rows: all equal to its color. -/
theorem mkSegments_ok_color {db : AirportDB} {color : String}
    {flight : List String} {rows : List SegRow}
    (h : mkSegments db color flight = Except.ok rows) :
    rows.map SegRow.color = (consPairs flight).map (fun _ => color) :=
  mapExcept_ok_map (fun _ _ hr => (mkSegRow_ok hr).2) h

/-- One itinerary contributes exactly one row per consecutive pair. -/
theorem mkSegments_ok_length {db : AirportDB} {color : String}
    {flight : List String} {rows : List SegRow}
    (h : mkSegments db color flight = Except.ok rows) :
    rows.length = (consPairs flight).length := by
  have h2 := congrArg List.length (mkSegments_ok_route h)
  simpa using h2

/-- Labels of the whole segment-row list: itinerary order, then pair
order within each itinerary. -/
theorem buildFlightRows_ok_route {db : AirportDB} :
    ∀ {flights : List (List String)} {i : Nat} {rows : List SegRow},
      buildFlightRows db i flights = Except.ok rows →
      rows.map SegRow.route
        = (flights.map (fun f =>
            (consPairs f).map (fun p => segmentLabel p.1 p.2 (joinRoute f)))).flatten := by
  intro flights
  induction flights with
  | nil =>
    intro i rows h
    simp only [buildFlightRows] at h
    injection h with h1
    subst h1
    rfl
  | cons f rest ih =>
    intro i rows h
    simp only [buildFlightRows] at h
    split at h
    · cases h
    next rows1 h1 =>
      split at h
      · cases h
      next tail h2 =>
        injection h with h3
        subst h3
        simp only [List.map_append, List.map_cons, List.flatten_cons]
        rw [mkSegments_ok_route h1, ih h2]

/-- Colors of the whole segment-row list: each itinerary's block carries
the color of its running index. -/
theorem buildFlightRows_ok_color {db : AirportDB} :
    ∀ {flights : List (List String)} {i : Nat} {rows : List SegRow},
      buildFlightRows db i flights = Except.ok rows →
      rows.map SegRow.color
        = ((List.enumFrom i flights).map (fun q =>
            (consPairs q.2).map (fun _ => tab10Color q.1))).flatten := by
  intro flights
  induction flights with
  | nil =>
    intro i rows h
    simp only [buildFlightRows] at h
    injection h with h1
    subst h1
    rfl
  | cons f rest ih =>
    intro i rows h
    simp only [buildFlightRows] at h
    split at h
    · cases h
    next rows1 h1 =>
      split at h
      · cases h
      next tail h2 =>
        injection h with h3
        subst h3
        simp only [List.enumFrom, List.map_append, List.map_cons,
          List.flatten_cons]
        rw [mkSegments_ok_color h1, ih h2]

/-- Total segment count: the sum of `len(flight) - 1` over the input. -/
theorem buildFlightRows_ok_length {db : AirportDB} :
    ∀ {flights : List (List String)} {i : Nat} {rows : List SegRow},
      buildFlightRows db i flights = Except.ok rows →
      rows.length = (flights.map (fun f => f.length - 1)).sum := by
  intro flights
  induction flights with
  | nil =>
    intro i rows h
    simp only [buildFlightRows] at h
    injection h with h1
    subst h1
    rfl
  | cons f rest ih =>
    intro i rows h
    simp only [buildFlightRows] at h
    split at h
    · cases h
    next rows1 h1 =>
      split at h
      · cases h
      next tail h2 =>
        injection h with h3
        subst h3
        simp only [List.length_append, List.map_cons, List.sum_cons]
        rw [mkSegments_ok_length h1, consPairs_length, ih h2]

/-- A failing segment phase fails on a key absent from the table. -/
theorem buildFlightRows_error {db : AirportDB} :
    ∀ {flights : List (List String)} {i : Nat} {e : String},
      buildFlightRows db i flights = Except.error e →
      lookupAirport db e = Except.error e := by
  intro flights
  induction flights with
  | nil => intro i e h; simp only [buildFlightRows] at h; cases h
  | cons f rest ih =>
    intro i e h
    simp only [buildFlightRows] at h
    split at h
    next e' h1 =>
      injection h with h2
      subst h2
      unfold mkSegments at h1
      obtain ⟨p, _, hp⟩ := mapExcept_error h1
      exact mkSegRow_error hp
    next rows1 h1 =>
      split at h
      next e' h2 =>
        injection h with h3
        subst h3
        exact ih h2
      next => cases h

/-- Codes appended by the deduplication loop: exactly the spec's
first-seen sequence relative to the already-seen set. -/
theorem collectCodes_ok_codes {db : AirportDB} :
    ∀ {codes seen : List String} {pts : List (String × Coord)}
      {seen' : List String},
      collectCodes db seen codes = Except.ok (pts, seen') →
      pts.map Prod.fst = specFirstSeen seen codes := by
  intro codes
  induction codes with
  | nil =>
    intro seen pts seen' h
    simp only [collectCodes] at h
    injection h with h1
    injection h1 with h2 h3
    subst h2
    rfl
  | cons c rest ih =>
    intro seen pts seen' h
    simp only [collectCodes] at h
    split at h
    next hc =>
      simp only [specFirstSeen, if_pos hc]
      exact ih h
    next hc =>
      split at h
      · cases h
      next coord hco =>
        split at h
        · cases h
        next tail seen2 hrec =>
          injection h with h1
          injection h1 with h2 h3
          subst h2
          simp only [specFirstSeen, if_neg hc, List.map_cons]
          rw [ih hrec]

/-- The final `seen_codes` set collects the initial set and every code of
the processed stream. -/
theorem collectCodes_ok_seen {db : AirportDB} :
    ∀ {codes seen : List String} {pts : List (String × Coord)}
      {seen' : List String},
      collectCodes db seen codes = Except.ok (pts, seen') →
      ∀ x : String, x ∈ seen' ↔ x ∈ seen ∨ x ∈ codes := by
  intro codes
  induction codes with
  | nil =>
    intro seen pts seen' h x
    simp only [collectCodes] at h
    injection h with h1
    injection h1 with h2 h3
    subst h3
    simp
  | cons c rest ih =>
    intro seen pts seen' h x
    simp only [collectCodes] at h
    split at h
    next hc =>
      have hxc : x = c → x ∈ seen := fun he => he ▸ hc
      have := ih h x
      simp only [List.mem_cons] at *
      tauto
    next hc =>
      split at h
      · cases h
      next coord hco =>
        split at h
        · cases h
        next tail seen2 hrec =>
          injection h with h1
          injection h1 with h2 h3
          subst h3
          have := ih hrec x
          simp only [List.mem_cons] at *
          tauto

/-- Every code of the processed stream was either already seen or resolves
in the table (its first occurrence was looked up). -/
theorem collectCodes_ok_lookup {db : AirportDB} :
    ∀ {codes seen : List String} {pts : List (String × Coord)}
      {seen' : List String},
      collectCodes db seen codes = Except.ok (pts, seen') →
      ∀ c ∈ codes, c ∈ seen ∨ ∃ co, lookupAirport db c = Except.ok co := by
  intro codes
  induction codes with
  | nil => intro seen pts seen' h c hc; cases hc
  | cons c0 rest ih =>
    intro seen pts seen' h c hc
    simp only [collectCodes] at h
    split at h
    next h0 =>
      rcases List.mem_cons.mp hc with he | hr
      · exact Or.inl (he ▸ h0)
      · exact ih h c hr
    next h0 =>
      split at h
      · cases h
      next coord hco =>
        split at h
        · cases h
        next tail seen2 hrec =>
          rcases List.mem_cons.mp hc with he | hr
          · exact Or.inr ⟨coord, he ▸ hco⟩
          · rcases ih hrec c hr with hs | hok
            · rcases List.mem_cons.mp hs with he | hseen
              · exact Or.inr ⟨coord, he ▸ hco⟩
              · exact Or.inl hseen
            · exact Or.inr hok

/-- A failing deduplication loop fails on a key absent from the table. -/
theorem collectCodes_error {db : AirportDB} :
    ∀ {codes seen : List String} {e : String},
      collectCodes db seen codes = Except.error e →
      lookupAirport db e = Except.error e := by
  intro codes
  induction codes with
  | nil => intro seen e h; simp only [collectCodes] at h; cases h
  | cons c rest ih =>
    intro seen e h
    simp only [collectCodes] at h
    split at h
    next hc => exact ih h
    next hc =>
      split at h
      next e' hco =>
        injection h with h1
        subst h1
        exact (lookupAirport_error_eq hco).2
      next coord hco =>
        split at h
        next e' hrec =>
          injection h with h1
          subst h1
          exact ih hrec
        next => cases h

/-- Composition law of the deduplication loop over concatenated streams
(successful runs). -/
theorem collectCodes_append_ok {db : AirportDB} :
    ∀ {xs ys seen : List String} {pts1 : List (String × Coord)}
      {seen1 : List String} {pts2 : List (String × Coord)}
      {seen2 : List String},
      collectCodes db seen xs = Except.ok (pts1, seen1) →
      collectCodes db seen1 ys = Except.ok (pts2, seen2) →
      collectCodes db seen (xs ++ ys) = Except.ok (pts1 ++ pts2, seen2) := by
  intro xs
  induction xs with
  | nil =>
    intro ys seen pts1 seen1 pts2 seen2 h1 h2
    simp only [collectCodes] at h1
    injection h1 with h3
    injection h3 with h4 h5
    subst h4
    subst h5
    simpa using h2
  | cons c rest ih =>
    intro ys seen pts1 seen1 pts2 seen2 h1 h2
    simp only [collectCodes] at h1
    simp only [List.cons_append, collectCodes]
    split at h1
    next hc =>
      rw [if_pos hc]
      exact ih h1 h2
    next hc =>
      rw [if_neg hc]
      split at h1
      · cases h1
      next coord hco =>
        split at h1
        · cases h1
        next tail seen3 hrec =>
          injection h1 with h3
          injection h3 with h4 h5
          subst h4
          subst h5
          have h6 := ih hrec h2
          simp only [List.append_eq] at h6 ⊢
          rw [h6]
          simp

/-- The nested per-itinerary loops behave as the single loop over the
concatenation of all itineraries. -/
theorem collectFlights_eq_ok {db : AirportDB} :
    ∀ {flights : List (List String)} {seen : List String}
      {pts : List (String × Coord)} {seen' : List String},
      collectFlights db seen flights = Except.ok (pts, seen') →
      collectCodes db seen flights.flatten = Except.ok (pts, seen') := by
  intro flights
  induction flights with
  | nil =>
    intro seen pts seen' h
    simpa only [collectFlights, List.flatten_nil, collectCodes] using h
  | cons f rest ih =>
    intro seen pts seen' h
    simp only [collectFlights] at h
    split at h
    · cases h
    next pts1 seen1 h1 =>
      split at h
      · cases h
      next pts2 seen2 h2 =>
        injection h with h3
        injection h3 with h4 h5
        subst h4
        subst h5
        simp only [List.flatten_cons]
        exact collectCodes_append_ok h1 (ih h2)

/-- A failing deduplication phase fails on a key absent from the table. -/
theorem collectFlights_error {db : AirportDB} :
    ∀ {flights : List (List String)} {seen : List String} {e : String},
      collectFlights db seen flights = Except.error e →
      lookupAirport db e = Except.error e := by
  intro flights
  induction flights with
  | nil => intro seen e h; simp only [collectFlights] at h; cases h
  | cons f rest ih =>
    intro seen e h
    simp only [collectFlights] at h
    split at h
    next e' h1 =>
      injection h with h2
      subst h2
      exact collectCodes_error h1
    next pts1 seen1 h1 =>
      split at h
      next e' h2 =>
        injection h with h3
        subst h3
        exact ih h2
      next => cases h

/-- Membership in the spec's first-seen sequence. -/
theorem specFirstSeen_mem :
    ∀ {codes seen : List String} {c : String},
      c ∈ specFirstSeen seen codes ↔ c ∈ codes ∧ c ∉ seen := by
  intro codes
  induction codes with
  | nil => intro seen c; simp [specFirstSeen]
  | cons c0 rest ih =>
    intro seen c
    simp only [specFirstSeen]
    split
    next hc =>
      have hcc : c = c0 → c ∈ seen := fun he => he ▸ hc
      have := @ih seen c
      simp only [List.mem_cons]
      tauto
    next hc =>
      have := @ih (c0 :: seen) c
      simp only [List.mem_cons] at this ⊢
      constructor
      · intro hmem
        rcases hmem with he | hmem
        · subst he; exact ⟨Or.inl rfl, hc⟩
        · have h2 := this.mp hmem
          exact ⟨Or.inr h2.1, fun hs => h2.2 (Or.inr hs)⟩
      · intro ⟨hin, hns⟩
        rcases hin with he | hin
        · exact Or.inl he
        · by_cases he : c = c0
          · exact Or.inl he
          · exact Or.inr (this.mpr ⟨hin, fun hs => (by tauto : False)⟩)

/-- The spec's first-seen sequence has no duplicate code. -/
theorem specFirstSeen_nodup :
    ∀ (codes seen : List String), (specFirstSeen seen codes).Nodup := by
  intro codes
  induction codes with
  | nil => intro seen; simp [specFirstSeen]
  | cons c rest ih =>
    intro seen
    simp only [specFirstSeen]
    split
    next hc => exact ih seen
    next hc =>
      refine List.nodup_cons.mpr ⟨?_, ih (c :: seen)⟩
      intro hmem
      exact (specFirstSeen_mem.mp hmem).2 (List.mem_cons_self c seen)

/-- Inversion of a successful `prepare_flight_data` run into its two
phases. -/
theorem prepare_ok_inv {db : AirportDB} {flights : List (List String)}
    {fgdf : FlightsGdf} {agdf : AirportsGdf}
    (h : prepare_flight_data db flights = Except.ok (fgdf, agdf)) :
    buildFlightRows db 0 flights = Except.ok fgdf.rows ∧
    ∃ seen', collectFlights db [] flights = Except.ok (agdf.rows, seen') := by
  unfold prepare_flight_data at h
  split at h
  · cases h
  next rows h1 =>
    split at h
    · cases h
    next airportRows seen' h2 =>
      injection h with h3
      injection h3 with h4 h5
      subst h4
      subst h5
      exact ⟨h1, seen', h2⟩

/-- A failing `prepare_flight_data` run fails on a key absent from the
table, and returns no collection at all. -/
theorem prepare_error_code {db : AirportDB} {flights : List (List String)}
    {e : String} (h : prepare_flight_data db flights = Except.error e) :
    lookupAirport db e = Except.error e := by
  unfold prepare_flight_data at h
  split at h
  next e' h1 =>
    injection h with h2
    subst h2
    exact buildFlightRows_error h1
  next rows h1 =>
    split at h
    next e' h2 =>
      injection h with h3
      subst h3
      exact collectFlights_error h2
    next => cases h

/-- Folding `min` never exceeds the initial accumulator. -/
theorem foldl_min_le_init : ∀ (xs : List ℚ) (a : ℚ), xs.foldl min a ≤ a := by
  intro xs
  induction xs with
  | nil => intro a; exact le_refl a
  | cons x xs ih => intro a; exact le_trans (ih (min a x)) (min_le_left a x)

/-- Folding `min` never exceeds any visited element. -/
theorem foldl_min_le_mem :
    ∀ (xs : List ℚ) (a x : ℚ), x ∈ xs → xs.foldl min a ≤ x := by
  intro xs
  induction xs with
  | nil => intro a x hx; cases hx
  | cons y ys ih =>
    intro a x hx
    rcases List.mem_cons.mp hx with he | hm
    · subst he
      exact le_trans (foldl_min_le_init ys (min a x)) (min_le_right a x)
    · exact ih (min a y) x hm

/-- Folding `max` dominates the initial accumulator. -/
theorem foldl_max_ge_init : ∀ (xs : List ℚ) (a : ℚ), a ≤ xs.foldl max a := by
  intro xs
  induction xs with
  | nil => intro a; exact le_refl a
  | cons x xs ih => intro a; exact le_trans (le_max_left a x) (ih (max a x))

/-- Folding `max` dominates any visited element. -/
theorem foldl_max_ge_mem :
    ∀ (xs : List ℚ) (a x : ℚ), x ∈ xs → x ≤ xs.foldl max a := by
  intro xs
  induction xs with
  | nil => intro a x hx; cases hx
  | cons y ys ih =>
    intro a x hx
    rcases List.mem_cons.mp hx with he | hm
    · subst he
      exact le_trans (le_max_right a x) (foldl_max_ge_init ys (max a x))
    · exact ih (max a y) x hm

/-- The list minimum bounds every member from below. -/
theorem listMin_le {l : List ℚ} {x : ℚ} (hx : x ∈ l) : listMin l ≤ x := by
  match l, hx with
  | y :: ys, hx =>
    simp only [listMin]
    rcases List.mem_cons.mp hx with he | hm
    · subst he
      exact foldl_min_le_init ys x
    · exact foldl_min_le_mem ys y x hm

/-- The list maximum bounds every member from above. -/
theorem le_listMax {l : List ℚ} {x : ℚ} (hx : x ∈ l) : x ≤ listMax l := by
  match l, hx with
  | y :: ys, hx =>
    simp only [listMax]
    rcases List.mem_cons.mp hx with he | hm
    · subst he
      exact foldl_max_ge_init ys x
    · exact foldl_max_ge_mem ys y x hm

/-! ## The claims -/

/-- C1: For every input sequence of itineraries, Route Builder
(`prepare_flight_data`) produces, for each itinerary of length N, exactly
N−1 segments when N ≥ 2 and zero segments when N < 2 (its waypoints still
contributing airport points), and the overall segment order matches
itinerary order then intra-itinerary consecutive-pair order, with labels
preserving input waypoint order. -/
theorem C1_segment_count_and_order {db : AirportDB}
    {flights : List (List String)} {fgdf : FlightsGdf} {agdf : AirportsGdf}
    (h : prepare_flight_data db flights = Except.ok (fgdf, agdf)) :
    fgdf.rows.map SegRow.route
      = (flights.map (fun f =>
          (consPairs f).map (fun p => segmentLabel p.1 p.2 (joinRoute f)))).flatten
    ∧ fgdf.rows.length = (flights.map (fun f => f.length - 1)).sum
    ∧ (∀ f : List String, 2 ≤ f.length → (consPairs f).length = f.length - 1)
    ∧ (∀ f : List String, f.length < 2 → consPairs f = [])
    ∧ (∀ f ∈ flights, ∀ c ∈ f, c ∈ agdf.rows.map Prod.fst) := by
  obtain ⟨h1, seen', h2⟩ := prepare_ok_inv h
  refine ⟨buildFlightRows_ok_route h1, buildFlightRows_ok_length h1,
    fun f _ => consPairs_length f, fun f hf => consPairs_nil_of_short f hf, ?_⟩
  intro f hf c hc
  rw [collectCodes_ok_codes (collectFlights_eq_ok h2)]
  exact specFirstSeen_mem.mpr
    ⟨List.mem_flatten.mpr ⟨f, hf, hc⟩, List.not_mem_nil c⟩

/-- Witness for C1 at the concrete round-trip input. -/
theorem C1_segment_count_and_order_witness :
    prepare_flight_data sampleDB demoFlights = Except.ok (demoF, demoA)
    ∧ (demoF.rows.map SegRow.route
        = (demoFlights.map (fun f =>
            (consPairs f).map (fun p => segmentLabel p.1 p.2 (joinRoute f)))).flatten
      ∧ demoF.rows.length = (demoFlights.map (fun f => f.length - 1)).sum
      ∧ (∀ f : List String, 2 ≤ f.length → (consPairs f).length = f.length - 1)
      ∧ (∀ f : List String, f.length < 2 → consPairs f = [])
      ∧ (∀ f ∈ demoFlights, ∀ c ∈ f, c ∈ demoA.rows.map Prod.fst)) :=
  ⟨by decide, @C1_segment_count_and_order sampleDB demoFlights demoF demoA (by decide)⟩

/-- C2: For every input sequence of itineraries, the airport-point
collection contains exactly the distinct airport codes appearing anywhere
across all itineraries, each code exactly once, ordered by first
occurrence; in particular `[["PRG","LAS"],["LAS","PRG"]]` yields 2
segments but only 2 airport points. -/
theorem C2_airport_points_dedup_first_seen {db : AirportDB}
    {flights : List (List String)} {fgdf : FlightsGdf} {agdf : AirportsGdf}
    (h : prepare_flight_data db flights = Except.ok (fgdf, agdf)) :
    agdf.rows.map Prod.fst = specFirstSeen [] flights.flatten
    ∧ (agdf.rows.map Prod.fst).Nodup
    ∧ (∀ c : String, c ∈ agdf.rows.map Prod.fst ↔ ∃ f ∈ flights, c ∈ f)
    ∧ prepare_flight_data sampleDB demo2Flights = Except.ok (demo2F, demo2A)
    ∧ demo2F.rows.length = 2
    ∧ demo2A.rows.length = 2 := by
  obtain ⟨h1, seen', h2⟩ := prepare_ok_inv h
  have h3 := collectCodes_ok_codes (collectFlights_eq_ok h2)
  refine ⟨h3, ?_, ?_, by decide, by decide, by decide⟩
  · rw [h3]
    exact specFirstSeen_nodup flights.flatten []
  · intro c
    rw [h3]
    rw [specFirstSeen_mem]
    simp [List.mem_flatten]

/-- Witness for C2 at the concrete deduplication input. -/
theorem C2_airport_points_dedup_first_seen_witness :
    prepare_flight_data sampleDB demo2Flights = Except.ok (demo2F, demo2A)
    ∧ (demo2A.rows.map Prod.fst = specFirstSeen [] demo2Flights.flatten
      ∧ (demo2A.rows.map Prod.fst).Nodup
      ∧ (∀ c : String, c ∈ demo2A.rows.map Prod.fst ↔ ∃ f ∈ demo2Flights, c ∈ f)
      ∧ prepare_flight_data sampleDB demo2Flights = Except.ok (demo2F, demo2A)
      ∧ demo2F.rows.length = 2
      ∧ demo2A.rows.length = 2) :=
  ⟨by decide, @C2_airport_points_dedup_first_seen sampleDB demo2Flights demo2F demo2A (by decide)⟩

/-- C3: For any input containing at least one airport code absent from the
reference table, `prepare_flight_data` fails with a key-not-found condition
(the error is itself a missing key) that propagates to the caller, and no
partial geometry collection is returned (the run yields an `error`, never
an `ok` pair). -/
theorem C3_unknown_code_aborts_build {db : AirportDB}
    {flights : List (List String)} {f : List String} {c : String}
    (hf : f ∈ flights) (hc : c ∈ f)
    (hmiss : lookupAirport db c = Except.error c) :
    ∃ e, prepare_flight_data db flights = Except.error e
      ∧ lookupAirport db e = Except.error e := by
  cases h : prepare_flight_data db flights with
  | error e => exact ⟨e, rfl, prepare_error_code h⟩
  | ok r =>
    obtain ⟨fgdf, agdf⟩ := r
    obtain ⟨h1, seen', h2⟩ := prepare_ok_inv h
    have h3 := collectCodes_ok_lookup (collectFlights_eq_ok h2) c
      (List.mem_flatten.mpr ⟨f, hf, hc⟩)
    rcases h3 with hs | ⟨co, hco⟩
    · exact absurd hs (List.not_mem_nil c)
    · rw [hmiss] at hco
      cases hco

/-- Witness for C3 at a concrete input with the unknown code `"XXX"`. -/
theorem C3_unknown_code_aborts_build_witness :
    (["PRG", "XXX"] ∈ [["PRG", "XXX"]]
      ∧ "XXX" ∈ ["PRG", "XXX"]
      ∧ lookupAirport sampleDB "XXX" = Except.error "XXX")
    ∧ ∃ e, prepare_flight_data sampleDB [["PRG", "XXX"]] = Except.error e
        ∧ lookupAirport sampleDB e = Except.error e :=
  ⟨⟨by decide, by decide, by decide⟩,
    @C3_unknown_code_aborts_build sampleDB [["PRG", "XXX"]] ["PRG", "XXX"] "XXX"
      (by decide) (by decide) (by decide)⟩

/-- C5: Color assignment is a pure function of the 0-based itinerary index
modulo the fixed palette size C = 10: indices differing by a multiple of C
get identical colors, and every segment belonging to the same itinerary
carries that itinerary's color. -/
theorem C5_color_pure_mod_palette {db : AirportDB}
    {flights : List (List String)} {fgdf : FlightsGdf} {agdf : AirportsGdf}
    (h : prepare_flight_data db flights = Except.ok (fgdf, agdf)) :
    (∀ i k : Nat, tab10Color (i + cmapN * k) = tab10Color i)
    ∧ (∀ i j : Nat, i % cmapN = j % cmapN → tab10Color i = tab10Color j)
    ∧ fgdf.rows.map SegRow.color
      = ((List.enumFrom 0 flights).map (fun q =>
          (consPairs q.2).map (fun _ => tab10Color q.1))).flatten := by
  obtain ⟨h1, _, _⟩ := prepare_ok_inv h
  refine ⟨?_, ?_, buildFlightRows_ok_color h1⟩
  · intro i k
    unfold tab10Color
    rw [Nat.add_mul_mod_self_left]
  · intro i j hij
    unfold tab10Color
    rw [hij]

/-- Witness for C5 at the concrete deduplication input (two itineraries,
colors at palette slots 0 and 1). -/
theorem C5_color_pure_mod_palette_witness :
    prepare_flight_data sampleDB demo2Flights = Except.ok (demo2F, demo2A)
    ∧ ((∀ i k : Nat, tab10Color (i + cmapN * k) = tab10Color i)
      ∧ (∀ i j : Nat, i % cmapN = j % cmapN → tab10Color i = tab10Color j)
      ∧ demo2F.rows.map SegRow.color
        = ((List.enumFrom 0 demo2Flights).map (fun q =>
            (consPairs q.2).map (fun _ => tab10Color q.1))).flatten) :=
  ⟨by decide, @C5_color_pure_mod_palette sampleDB demo2Flights demo2F demo2A (by decide)⟩

/-- C6: For every segment built from the consecutive pair
`(code[j], code[j+1])` of an itinerary, its label is exactly the string
`"<origin> → <dest> (part of <full itinerary joined by ' → '>)"`: the
route column equals, position by position, that explicit format applied to
each consecutive pair — itinerary by itinerary — with the parenthesized
route the entire parent itinerary joined by `" → "`. -/
theorem C6_segment_label_format {db : AirportDB}
    {flights : List (List String)} {fgdf : FlightsGdf} {agdf : AirportsGdf}
    (h : prepare_flight_data db flights = Except.ok (fgdf, agdf)) :
    fgdf.rows.map SegRow.route
      = (flights.map (fun f => (consPairs f).map (fun p =>
          p.1 ++ " → " ++ p.2 ++ " (part of "
            ++ String.intercalate " → " f ++ ")"))).flatten := by
  obtain ⟨h1, _, _⟩ := prepare_ok_inv h
  exact buildFlightRows_ok_route h1

/-- Witness for C6 at the concrete round-trip input. -/
theorem C6_segment_label_format_witness :
    prepare_flight_data sampleDB demoFlights = Except.ok (demoF, demoA)
    ∧ demoF.rows.map SegRow.route
      = (demoFlights.map (fun f => (consPairs f).map (fun p =>
          p.1 ++ " → " ++ p.2 ++ " (part of "
            ++ String.intercalate " → " f ++ ")"))).flatten :=
  ⟨by decide, @C6_segment_label_format sampleDB demoFlights demoF demoA (by decide)⟩

/-- C9: Feeding the single itinerary list `[["PRG","LAS"]]` to
`prepare_flight_data` (over any table resolving both codes) yields exactly
1 segment and exactly 2 airport points whose codes are `"PRG"` and
`"LAS"`. -/
theorem C9_round_trip_prg_las {db : AirportDB} {cP cL : Coord}
    (hP : lookupAirport db "PRG" = Except.ok cP)
    (hL : lookupAirport db "LAS" = Except.ok cL) :
    ∃ fgdf agdf,
      prepare_flight_data db [["PRG", "LAS"]] = Except.ok (fgdf, agdf)
      ∧ fgdf.rows.length = 1
      ∧ agdf.rows.map Prod.fst = ["PRG", "LAS"] := by
  refine ⟨{ rows := [{ route := segmentLabel "PRG" "LAS" (joinRoute ["PRG", "LAS"])
                       color := tab10Color 0
                       geometry := { p0 := cP, p1 := cL } }] },
          { rows := [("PRG", cP), ("LAS", cL)] }, ?_, rfl, rfl⟩
  simp only [prepare_flight_data, buildFlightRows, mkSegments, mapExcept,
    mkSegRow, consPairs, collectFlights, collectCodes, hP, hL,
    List.mem_singleton, List.not_mem_nil, List.mem_cons]
  simp

/-- Witness for C9 over the concrete sample table. -/
theorem C9_round_trip_prg_las_witness :
    (lookupAirport sampleDB "PRG" = Except.ok prgCoord
      ∧ lookupAirport sampleDB "LAS" = Except.ok lasCoord)
    ∧ ∃ fgdf agdf,
        prepare_flight_data sampleDB [["PRG", "LAS"]] = Except.ok (fgdf, agdf)
        ∧ fgdf.rows.length = 1
        ∧ agdf.rows.map Prod.fst = ["PRG", "LAS"] :=
  ⟨⟨by decide, by decide⟩, @C9_round_trip_prg_las sampleDB prgCoord lasCoord (by decide) (by decide)⟩

/-- C4 fails on the code: on a concrete request whose data preparation
succeeds, a basemap-fetch failure in the static renderer aborts the whole
`visualize_flights` tool call before `create_interactive_map` runs, so the
interactive buffer stays `none` — interactive rendering of the same
request is NOT still produced, because the orchestrator invokes the two
renderers sequentially inside one tool, not independently. -/
theorem C4_counterexample_static_failure :
    prepare_flight_data sampleDB demoFlights = Except.ok (demoF, demoA)
    ∧ visualize_flights sampleDB (Except.error "fetch failed") demoFlights
        { static_png_bytes := none, interactive_html_bytes := none }
      = ({ static_png_bytes := none, interactive_html_bytes := none },
         Except.error "fetch failed")
    ∧ (visualize_flights sampleDB (Except.error "fetch failed") demoFlights
        { static_png_bytes := none,
          interactive_html_bytes := none }).1.interactive_html_bytes
      = none := by decide

/-- C4 amended: when the static renderer fails to obtain its basemap, the
failure propagates out of the `visualize_flights` tool call before the
interactive renderer is invoked; both buffers are left untouched, so the
interactive rendering of the same request is not produced either. -/
theorem C4_static_failure_aborts_tool {db : AirportDB}
    {flights : List (List String)} {bufs : ToolBuffers} {e : String}
    {fgdf : FlightsGdf} {agdf : AirportsGdf}
    (hprep : prepare_flight_data db flights = Except.ok (fgdf, agdf)) :
    visualize_flights db (Except.error e) flights bufs
      = (bufs, Except.error e) := by
  unfold visualize_flights
  rw [hprep]
  rfl

/-- Witness for the amended C4 at a concrete input. -/
theorem C4_static_failure_aborts_tool_witness :
    prepare_flight_data sampleDB demoFlights = Except.ok (demoF, demoA)
    ∧ visualize_flights sampleDB (Except.error "net down") demoFlights
        { static_png_bytes := none, interactive_html_bytes := none }
      = ({ static_png_bytes := none, interactive_html_bytes := none },
         Except.error "net down") :=
  ⟨by decide, @C4_static_failure_aborts_tool sampleDB demoFlights
    { static_png_bytes := none, interactive_html_bytes := none } "net down"
    demoF demoA (by decide)⟩

/-- C7: The static renderer crops the plot exactly to the combined
bounding box of all segment and point geometries expanded symmetrically by
10% of its width/height on each side, so the crop contains all input
coordinates — strictly, with positive padding, on every axis whose extent
is nonzero — and on an axis of zero extent (in particular the degenerate
single-point case) the padding is zero and the renderer still succeeds. -/
theorem C7_static_crop_padding {fgdf : FlightsGdf} {agdf : AirportsGdf}
    (w : Unit) (hne : allCoords fgdf agdf ≠ []) :
    ∃ fig, create_static_map (Except.ok w) fgdf agdf = Except.ok fig
    ∧ fig.xlim.1 = (total_bounds fgdf agdf).minx
        - ((total_bounds fgdf agdf).maxx - (total_bounds fgdf agdf).minx) * (1/10)
    ∧ fig.xlim.2 = (total_bounds fgdf agdf).maxx
        + ((total_bounds fgdf agdf).maxx - (total_bounds fgdf agdf).minx) * (1/10)
    ∧ fig.ylim.1 = (total_bounds fgdf agdf).miny
        - ((total_bounds fgdf agdf).maxy - (total_bounds fgdf agdf).miny) * (1/10)
    ∧ fig.ylim.2 = (total_bounds fgdf agdf).maxy
        + ((total_bounds fgdf agdf).maxy - (total_bounds fgdf agdf).miny) * (1/10)
    ∧ (∀ c ∈ allCoords fgdf agdf,
        fig.xlim.1 ≤ c.lon ∧ c.lon ≤ fig.xlim.2
        ∧ fig.ylim.1 ≤ c.lat ∧ c.lat ≤ fig.ylim.2)
    ∧ ((total_bounds fgdf agdf).minx < (total_bounds fgdf agdf).maxx →
        ∀ c ∈ allCoords fgdf agdf, fig.xlim.1 < c.lon ∧ c.lon < fig.xlim.2)
    ∧ ((total_bounds fgdf agdf).miny < (total_bounds fgdf agdf).maxy →
        ∀ c ∈ allCoords fgdf agdf, fig.ylim.1 < c.lat ∧ c.lat < fig.ylim.2)
    ∧ ((total_bounds fgdf agdf).minx = (total_bounds fgdf agdf).maxx →
        ((total_bounds fgdf agdf).maxx - (total_bounds fgdf agdf).minx) * (1/10) = 0)
    ∧ ((total_bounds fgdf agdf).miny = (total_bounds fgdf agdf).maxy →
        ((total_bounds fgdf agdf).maxy - (total_bounds fgdf agdf).miny) * (1/10) = 0) := by
  refine ⟨_, rfl, rfl, rfl, rfl, rfl, ?_, ?_, ?_, ?_, ?_⟩
  · intro c hc
    have hlon : c.lon ∈ (allCoords fgdf agdf).map Coord.lon :=
      List.mem_map_of_mem _ hc
    have hlat : c.lat ∈ (allCoords fgdf agdf).map Coord.lat :=
      List.mem_map_of_mem _ hc
    have h1 : (total_bounds fgdf agdf).minx ≤ c.lon := listMin_le hlon
    have h2 : c.lon ≤ (total_bounds fgdf agdf).maxx := le_listMax hlon
    have h3 : (total_bounds fgdf agdf).miny ≤ c.lat := listMin_le hlat
    have h4 : c.lat ≤ (total_bounds fgdf agdf).maxy := le_listMax hlat
    have hpx : 0 ≤ ((total_bounds fgdf agdf).maxx
        - (total_bounds fgdf agdf).minx) * (1/10) :=
      mul_nonneg (by linarith) (by norm_num)
    have hpy : 0 ≤ ((total_bounds fgdf agdf).maxy
        - (total_bounds fgdf agdf).miny) * (1/10) :=
      mul_nonneg (by linarith) (by norm_num)
    exact ⟨by linarith, by linarith, by linarith, by linarith⟩
  · intro hlt c hc
    have hlon : c.lon ∈ (allCoords fgdf agdf).map Coord.lon :=
      List.mem_map_of_mem _ hc
    have h1 : (total_bounds fgdf agdf).minx ≤ c.lon := listMin_le hlon
    have h2 : c.lon ≤ (total_bounds fgdf agdf).maxx := le_listMax hlon
    have hpx : 0 < ((total_bounds fgdf agdf).maxx
        - (total_bounds fgdf agdf).minx) * (1/10) :=
      mul_pos (by linarith) (by norm_num)
    exact ⟨by linarith, by linarith⟩
  · intro hlt c hc
    have hlat : c.lat ∈ (allCoords fgdf agdf).map Coord.lat :=
      List.mem_map_of_mem _ hc
    have h3 : (total_bounds fgdf agdf).miny ≤ c.lat := listMin_le hlat
    have h4 : c.lat ≤ (total_bounds fgdf agdf).maxy := le_listMax hlat
    have hpy : 0 < ((total_bounds fgdf agdf).maxy
        - (total_bounds fgdf agdf).miny) * (1/10) :=
      mul_pos (by linarith) (by norm_num)
    exact ⟨by linarith, by linarith⟩
  · intro heq
    rw [heq]
    ring
  · intro heq
    rw [heq]
    ring

/-- Witness for C7 at the concrete round-trip geometry set. -/
theorem C7_static_crop_padding_witness :
    allCoords demoF demoA ≠ []
    ∧ ∃ fig, create_static_map (Except.ok ()) demoF demoA = Except.ok fig
    ∧ fig.xlim.1 = (total_bounds demoF demoA).minx
        - ((total_bounds demoF demoA).maxx - (total_bounds demoF demoA).minx) * (1/10)
    ∧ fig.xlim.2 = (total_bounds demoF demoA).maxx
        + ((total_bounds demoF demoA).maxx - (total_bounds demoF demoA).minx) * (1/10)
    ∧ fig.ylim.1 = (total_bounds demoF demoA).miny
        - ((total_bounds demoF demoA).maxy - (total_bounds demoF demoA).miny) * (1/10)
    ∧ fig.ylim.2 = (total_bounds demoF demoA).maxy
        + ((total_bounds demoF demoA).maxy - (total_bounds demoF demoA).miny) * (1/10)
    ∧ (∀ c ∈ allCoords demoF demoA,
        fig.xlim.1 ≤ c.lon ∧ c.lon ≤ fig.xlim.2
        ∧ fig.ylim.1 ≤ c.lat ∧ c.lat ≤ fig.ylim.2)
    ∧ ((total_bounds demoF demoA).minx < (total_bounds demoF demoA).maxx →
        ∀ c ∈ allCoords demoF demoA, fig.xlim.1 < c.lon ∧ c.lon < fig.xlim.2)
    ∧ ((total_bounds demoF demoA).miny < (total_bounds demoF demoA).maxy →
        ∀ c ∈ allCoords demoF demoA, fig.ylim.1 < c.lat ∧ c.lat < fig.ylim.2)
    ∧ ((total_bounds demoF demoA).minx = (total_bounds demoF demoA).maxx →
        ((total_bounds demoF demoA).maxx - (total_bounds demoF demoA).minx) * (1/10) = 0)
    ∧ ((total_bounds demoF demoA).miny = (total_bounds demoF demoA).maxy →
        ((total_bounds demoF demoA).maxy - (total_bounds demoF demoA).miny) * (1/10) = 0) :=
  ⟨by decide, @C7_static_crop_padding demoF demoA () (by decide)⟩

/-- C8: For every geometry set, the interactive renderer returns a
non-empty markup buffer containing exactly one poly-line construct per
segment — in order, each with hover tooltip equal to the segment's label
and with the segment's color — and exactly one marker construct per
airport point, each with hover tooltip equal to the airport code. -/
theorem C8_interactive_map_constructs (fgdf : FlightsGdf) (agdf : AirportsGdf) :
    ((buildInteractiveMap fgdf agdf).children.filter isPolyLine).length
      = fgdf.rows.length
    ∧ ((buildInteractiveMap fgdf agdf).children.filter isPolyLine).map childTooltip
      = fgdf.rows.map SegRow.route
    ∧ ((buildInteractiveMap fgdf agdf).children.filter isPolyLine).map childColor
      = fgdf.rows.map SegRow.color
    ∧ ((buildInteractiveMap fgdf agdf).children.filter isCircleMarker).length
      = agdf.rows.length
    ∧ ((buildInteractiveMap fgdf agdf).children.filter isCircleMarker).map childTooltip
      = agdf.rows.map Prod.fst
    ∧ 0 < (create_interactive_map fgdf agdf).length := by
  have hfilter : (buildInteractiveMap fgdf agdf).children.filter isPolyLine
      = fgdf.rows.map (fun row =>
          FoliumChild.polyLine
            [(row.geometry.p0.lat, row.geometry.p0.lon),
             (row.geometry.p1.lat, row.geometry.p1.lon)]
            row.color 3 (7/10) row.route) := by
    simp [buildInteractiveMap, List.filter_append, List.filter_map,
      Function.comp_def, isPolyLine, isCircleMarker]
  have hfilter2 : (buildInteractiveMap fgdf agdf).children.filter isCircleMarker
      = agdf.rows.map (fun row =>
          FoliumChild.circleMarker (row.2.lat, row.2.lon) 8 "blue" true "blue"
            (7/10) row.1) := by
    simp [buildInteractiveMap, List.filter_append, List.filter_map,
      Function.comp_def, isPolyLine, isCircleMarker]
  refine ⟨?_, ?_, ?_, ?_, ?_, ?_⟩
  · rw [hfilter]; simp
  · rw [hfilter]; simp [childTooltip]
  · rw [hfilter]; simp [childColor]
  · rw [hfilter2]; simp
  · rw [hfilter2]; simp [childTooltip]
  · have hlen : (create_interactive_map fgdf agdf).length
        = ("<!DOCTYPE html><head></head><div class=folium-map></div>").length
          + (String.join ((buildInteractiveMap fgdf agdf).children.map renderChild)).length := by
      unfold create_interactive_map renderHtml
      exact String.length_append _ _
    have hpos : 0 < ("<!DOCTYPE html><head></head><div class=folium-map></div>").length := by
      decide
    omega

/-- Only a run of the `visualize_flights` tool can change the two
orchestrator buffers. -/
theorem runEvents_other_only {db : AirportDB} {world : Except String Unit} :
    ∀ {evs : List AgentEvent} (bufs : ToolBuffers),
      (∀ e ∈ evs, ∀ fl, e ≠ AgentEvent.callVisualize fl) →
      runEvents db world evs bufs = bufs := by
  intro evs
  induction evs with
  | nil => intro bufs _; rfl
  | cons e rest ih =>
    intro bufs h
    cases e with
    | callVisualize fl => exact absurd rfl (h _ (List.mem_cons_self _ _) fl)
    | callOther =>
      simp only [runEvents]
      exact ih bufs (fun e he fl => h e (List.mem_cons_of_mem _ he) fl)

/-- C10: The static PNG and interactive HTML file parts are attached to
the final message only when the `visualize_flights` tool has run and set
the corresponding buffer to a non-`None` value; if the tool is never
invoked during the run, the final message is the text part alone. -/
theorem C10_final_message_file_parts {db : AirportDB}
    {world : Except String Unit} {evs : List AgentEvent} {answer : String}
    (h : ∀ e ∈ evs, ∀ fl, e ≠ AgentEvent.callVisualize fl) :
    buildFinalMessage answer
        (runEvents db world evs
          { static_png_bytes := none, interactive_html_bytes := none })
      = [Part.text answer]
    ∧ (∀ (bufs : ToolBuffers) (nm : String) (b : StaticFig),
        Part.pngFile nm b ∈ buildFinalMessage answer bufs →
          bufs.static_png_bytes = some b)
    ∧ (∀ (bufs : ToolBuffers) (nm : String) (s : String),
        Part.htmlFile nm s ∈ buildFinalMessage answer bufs →
          bufs.interactive_html_bytes = some s) := by
  refine ⟨?_, ?_, ?_⟩
  · rw [runEvents_other_only _ h]
    rfl
  · intro bufs nm b hmem
    obtain ⟨sp, ib⟩ := bufs
    cases sp <;> cases ib <;> simp_all [buildFinalMessage]
  · intro bufs nm s hmem
    obtain ⟨sp, ib⟩ := bufs
    cases sp <;> cases ib <;> simp_all [buildFinalMessage]

/-- Witness for C10 at a concrete run with no `visualize_flights`
invocation. -/
theorem C10_final_message_file_parts_witness :
    (∀ e ∈ [AgentEvent.callOther], ∀ fl, e ≠ AgentEvent.callVisualize fl)
    ∧ (buildFinalMessage "done"
          (runEvents sampleDB (Except.ok ()) [AgentEvent.callOther]
            { static_png_bytes := none, interactive_html_bytes := none })
        = [Part.text "done"]
      ∧ (∀ (bufs : ToolBuffers) (nm : String) (b : StaticFig),
          Part.pngFile nm b ∈ buildFinalMessage "done" bufs →
            bufs.static_png_bytes = some b)
      ∧ (∀ (bufs : ToolBuffers) (nm : String) (s : String),
          Part.htmlFile nm s ∈ buildFinalMessage "done" bufs →
            bufs.interactive_html_bytes = some s)) :=
  ⟨(by intro e he fl hcon; simp only [List.mem_singleton] at he; subst he; cases hcon),
    @C10_final_message_file_parts sampleDB (Except.ok ()) [AgentEvent.callOther] "done"
      (by intro e he fl hcon; simp only [List.mem_singleton] at he; subst he; cases hcon)⟩

end AgentStack
